import Mathlib

/-!
Shallow embedding of the Greppo raster-ingestion pipeline and viewport
computation (library/src/greppo/greppo.py, class GreppoAppProxy), together
with theorems settling the specification claims about it.

Modelling conventions:
* Pixel values and geographic coordinates are rationals (exact idealization
  of the float arithmetic; every comparison the code performs is exact at
  the inputs used here).
* External collaborators (rasterio calculate_default_transform, the warp
  resampler, the GDAL PNG encoder) are abstract function parameters bundled
  in a GeoLib structure; theorems quantify over them.
* Stateful code becomes explicit state passing on an AppState record that
  mirrors GreppoAppProxy.__init__; Python exceptions become an Except
  result carrying the exception class name.
* File handles are modelled by an explicit ledger of open files in the
  state, since resource lifetime is itself the subject of one claim.
-/

set_option maxRecDepth 100000

namespace Greppo

/-- Byte strings, as lists of naturals (each entry a byte value). -/
abbrev Bytes := List Nat

/-- A 2-D pixel plane (one raster band buffer). -/
abbrev Plane := List (List ℚ)

/-- A 3-D pixel array, as returned by rasterio.warp.reproject for a single
band: shape (1, height, width), i.e. a list holding one plane. -/
abbrev Cube := List Plane

/-- An affine pixel-to-CRS transform with coefficients (a b c / d e f), as
in the affine library used by rasterio. -/
structure Affine where
  a : ℚ
  b : ℚ
  c : ℚ
  d : ℚ
  e : ℚ
  f : ℚ
deriving DecidableEq

/-- Application of an affine transform to a point, as affine.Affine.__mul__
does for a (col, row) pair: (a x + b y + c, d x + e y + f). -/
def Affine.apply (t : Affine) (x y : ℚ) : ℚ × ℚ :=
  (t.a * x + t.b * y + t.c, t.d * x + t.e * y + t.f)

/-- The identity scaling with zero translation. -/
def Affine.identity : Affine := ⟨1, 0, 0, 0, 1, 0⟩

/-- Source-CRS bounding rectangle in rasterio BoundingBox field order
(left, bottom, right, top). -/
structure SrcBounds where
  left : ℚ
  bottom : ℚ
  right : ℚ
  top : ℚ
deriving DecidableEq

/-- An opened raster dataset: the attributes of rasterio DatasetReader the
pipeline reads.  Band pixel buffers are 1-indexed in rasterio; data.get (i)
holds band (i+1). -/
structure SourceRaster where
  crs : String
  width : Nat
  height : Nat
  count : Nat
  bounds : SrcBounds
  data : List Plane
deriving DecidableEq

/-- An element of the dst_bands list built by raster_layer.  The reproject
loop appends (3-D array, transform) tuples; the padding loop would append
rasterio.band handles (a namedtuple holding the dataset and a band index),
a different shape of value, so the list is heterogeneous. -/
inductive DstBand where
  | reproj (arr : Cube) (t : Affine)
  | srcBandHandle (bidx : Nat)
deriving DecidableEq

/-- The transform component of a dst_bands entry, when it has one. -/
def DstBand.transform? : DstBand → Option Affine
  | .reproj _ t => some t
  | .srcBandHandle _ => none

/-- The keys of png_kwargs that raster_layer overwrites after copying the
source meta (the keys it leaves untouched play no role in any claim). -/
structure PngMeta where
  crs : String
  width : Nat
  height : Nat
  driver : String
  dtype : String
  transform : Affine
  count : Nat
deriving DecidableEq

/-- Abstract external collaborators of the pipeline.

* cdt models rasterio.warp.calculate_default_transform:
  (src crs, dst crs, src width, src height, src bounds) to
  (transform, width, height) of the destination grid.
* resample models the per-band warp onto a destination grid.
* flushPart and finalPart model the GDAL PNG writer over a MemoryFile:
  flushPart is what the in-memory file contains while the dataset writer
  is still open (after all band and colormap writes), finalPart is what
  closing the writer appends (header/idat finalization).  Both are
  functions of the metadata and the planes written. -/
structure GeoLib where
  cdt : String → String → Nat → Nat → SrcBounds → Affine × Nat × Nat
  resample : Plane → String → String → Affine × Nat × Nat → Plane
  flushPart : PngMeta → List Plane → Bytes
  finalPart : PngMeta → List Plane → Bytes

/-- The fixed destination CRS of raster_layer. -/
def dstCrs : String := "EPSG:4326"

/-- rasterio MemoryFile, modelled as its buffer plus the file position.
Reading returns the bytes from the current position to the end and leaves
the position at the end; it is not reset by writes from the dataset
writer opened on the same memory file. -/
structure MemFile where
  buf : Bytes
  pos : Nat
deriving DecidableEq

/-- MemoryFile.read with the default size: everything from the current
position on, advancing the position. -/
def MemFile.read (m : MemFile) : Bytes × MemFile :=
  (m.buf.drop m.pos, { m with pos := m.buf.length })

/-- One base64 output character (RFC 4648 alphabet). -/
def b64char (n : Nat) : Char :=
  ("ABCDEFGHIJKLMNOPQRSTUVWXYZabcdefghijklmnopqrstuvwxyz0123456789+/".toList).getD n
    ("=".toList.getD 0 ' ')

/-- base64.b64encode over byte lists. -/
def b64encode : Bytes → String
  | [] => ""
  | [x] =>
    String.mk [b64char (x / 4), b64char (x % 4 * 16), b64char 64, b64char 64]
  | [x, y] =>
    String.mk [b64char (x / 4), b64char (x % 4 * 16 + y / 16), b64char (y % 16 * 4), b64char 64]
  | x :: y :: z :: rest =>
    String.mk [b64char (x / 4), b64char (x % 4 * 16 + y / 16),
      b64char (y % 16 * 4 + z / 64), b64char (z % 64)] ++ b64encode rest

/-- greppo.py line 188 together with line 189: rasterio.band picks band
bidx of the source, and reproject with no destination array computes the
default destination grid itself, by the same closed-form
calculate_default_transform on the the dataset geometry carried by the
band handle, then resamples onto it.  The result is the (3-D array,
transform) pair the loop appends. -/
def reprojectBand (G : GeoLib) (src : SourceRaster) (bidx : Nat) : Cube × Affine :=
  let grid := G.cdt src.crs dstCrs src.width src.height src.bounds
  ([G.resample (src.data.getD (bidx - 1) []) src.crs dstCrs grid], grid.1)

/-- greppo.py lines 186 to 194: the reprojection loop over all source
bands followed by the padding loop.  The padding loop iterates over
range(len(dst_bands), src_dataset.count) and would append
rasterio.band(src_dataset, 1) handles. -/
def rasterDstBands (G : GeoLib) (src : SourceRaster) : List DstBand :=
  let dst_bands := (List.range src.count).map fun n =>
    let rb := reprojectBand G src (n + 1)
    DstBand.reproj rb.1 rb.2
  if src.count ≠ 3 then
    dst_bands ++
      (List.range (src.count - dst_bands.length)).map fun _ => DstBand.srcBandHandle 1
  else
    dst_bands

/-- greppo.py line 196: np.where(cube > 1e8, 0, 1), elementwise over the
3-D band-0 array. -/
def npWhereAlpha (c : Cube) : Cube :=
  c.map fun p => p.map fun r => r.map fun x => if x > 100000000 then 0 else 1

/-- numpy astype(uint8) on an integral-valued array: wrap into 0..255. -/
def astypeUint8 (c : Cube) : Cube :=
  c.map fun p => p.map fun r => r.map fun x => ((x.floor % 256 : ℤ) : ℚ)

/-- greppo.py lines 186 to 199: band list construction, padding, alpha
synthesis and append.  Indexing dst_bands[0] on an empty list raises
IndexError; if the head were a band handle the elementwise comparison
would raise TypeError. -/
def rasterAllBands (G : GeoLib) (src : SourceRaster) : Except String (List DstBand) :=
  let dst_bands := rasterDstBands G src
  match dst_bands.head? with
  | none => .error "IndexError"
  | some (DstBand.srcBandHandle _) => .error "TypeError"
  | some (DstBand.reproj arr0 t0) =>
    let alpha := npWhereAlpha arr0
    .ok (dst_bands ++ [DstBand.reproj (astypeUint8 alpha) t0])

/-- greppo.py lines 216 to 217: the plane written for each dst_bands
entry is dst_band[0][0], the first plane of the 3-D array; on a band
handle the double indexing raises TypeError, on an empty array
IndexError. -/
def writtenPlanes (bands : List DstBand) : Except String (List Plane) :=
  bands.mapM fun b =>
    match b with
    | .reproj arr _ =>
      match arr.head? with
      | some p => Except.ok p
      | none => Except.error "IndexError"
    | .srcBandHandle _ => Except.error "TypeError"

/-- The error taxonomy of the specification (its section 7).  It is defined
here only so that claims about typed failures can be stated; the embedded
code below never constructs a value of this type, because no IngestError
class exists anywhere in the source. -/
inductive IngestError where
  | UnreadableSource
  | ReprojectionFailed
  | EmptyGeometry
  | EncodingFailed
deriving DecidableEq

/-- How a Python call can fail: with an exception of some library class
(identified by its class name) or with a typed IngestError from the
taxonomy of the specification. -/
inductive PyErr where
  | exn (typeName : String)
  | ingest (e : IngestError)
deriving DecidableEq

/-- Result of a Python call: a value or a propagating failure. -/
abbrev PyResult (α : Type) := Except PyErr α

deriving instance DecidableEq for Except

/-- greppo.py lines 201 to 212: the png_kwargs fields raster_layer
overwrites after copying the source meta, with count filled in by the
caller from the final band list length. -/
def pngMetaOf (G : GeoLib) (src : SourceRaster) (count : Nat) : PngMeta :=
  let tw := G.cdt src.crs dstCrs src.width src.height src.bounds
  ⟨dstCrs, tw.2.1, tw.2.2, "PNG", "uint8", tw.1, count⟩

/-- greppo.py lines 229 to 231: bounds_bottom and bounds_right name the
two coordinates of transform applied to (0, 0), bounds_top and
bounds_left the two coordinates of transform applied to (width, height),
and the rectangle is assembled as
[[bounds_left, bounds_bottom], [bounds_right, bounds_top]]. -/
def rasterBounds (transform : Affine) (width height : Nat) : List (List ℚ) :=
  let p1 := transform.apply 0 0
  let p2 := transform.apply (width : ℚ) (height : ℚ)
  [[p2.2, p1.1], [p1.2, p2.1]]

/-- layers/raster_layer.py RasterLayer dataclass, as constructed at
greppo.py line 234. -/
structure RasterLayer where
  id : String
  title : String
  description : String
  url : String
  bounds : List (List ℚ)
  visible : Bool
deriving DecidableEq

/-- Per-geometry bounds row of a GeoDataFrame (geometry.bounds columns
minx, miny, maxx, maxy). -/
structure GeomBounds where
  minx : ℚ
  miny : ℚ
  maxx : ℚ
  maxy : ℚ
deriving DecidableEq

/-- layers/overlay_layer.py OverlayLayer dataclass, as constructed at
greppo.py line 168; the vector data is abstracted to its bounds rows and
the style dict to an opaque token. -/
structure OverlayLayer where
  id : String
  data : List GeomBounds
  title : String
  description : String
  style : String
  visible : Bool
  viewzoom : List ℚ
deriving DecidableEq

/-- layers/base_layer.py BaseLayer dataclass (greppo.py line 153). -/
structure BaseLayer where
  id : String
  name : String
  visible : Bool
  url : String
  subdomains : List String
  attribution : String
deriving DecidableEq

/-- layers/image_layer.py ImageLayer dataclass (greppo.py line 260). -/
structure ImageLayer where
  id : String
  title : String
  description : String
  url : String
  bounds : List (List ℚ)
  visible : Bool
deriving DecidableEq

/-- The mutable session state of GreppoAppProxy, mirroring __init__
(greppo.py lines 81 to 92).  Tile layers, registered inputs and the style
of overlays are built by modules outside the two source files and are
abstracted to opaque tokens.  open_files is the resource ledger of the
embedding: the paths of rasterio datasets opened and not yet closed. -/
structure AppState where
  base_layers : List BaseLayer
  tile_layers : List String
  overlay_layers : List OverlayLayer
  raster_layers : List RasterLayer
  image_layers : List ImageLayer
  raster_image_reference : List Bytes
  registered_inputs : List String
  inputs : List (String × String)
  open_files : List String
deriving DecidableEq

/-- The state of a freshly constructed GreppoAppProxy. -/
def initState : AppState :=
  ⟨[], [], [], [], [], [], [], [], []⟩

/-- greppo.py lines 172 to 235, GreppoAppProxy.raster_layer.

fs models the filesystem seen by rasterio.open: none means the path
cannot be opened as a raster, in which case rasterio raises its
RasterioIOError.  The id argument stands for the uuid.uuid4().hex draw.
The source never closes src_dataset (there is no close call and no with
block around it), so a successfully opened handle stays in the
open_files ledger on every path below. -/
def raster_layer (G : GeoLib) (fs : String → Option SourceRaster) (st : AppState)
    (id file_path title description : String) (visible : Bool) :
    PyResult Unit × AppState :=
  match fs file_path with
  | none => (.error (.exn "RasterioIOError"), st)
  | some src =>
    let st := { st with open_files := st.open_files ++ [file_path] }
    let tw := G.cdt src.crs dstCrs src.width src.height src.bounds
    let transform := tw.1
    let width := tw.2.1
    let height := tw.2.2
    match rasterAllBands G src with
    | .error e => (.error (.exn e), st)
    | .ok dst_bands =>
      let png_kwargs : PngMeta := pngMetaOf G src dst_bands.length
      match writtenPlanes dst_bands with
      | .error e => (.error (.exn e), st)
      | .ok planes =>
        let m0 : MemFile := ⟨G.flushPart png_kwargs planes, 0⟩
        let r1 := m0.read
        let st := { st with raster_image_reference := st.raster_image_reference ++ [r1.1] }
        let m2 : MemFile := { r1.2 with buf := r1.2.buf ++ G.finalPart png_kwargs planes }
        let r2 := m2.read
        let url := "data:image/png;base64," ++ b64encode r2.1
        let bounds := rasterBounds transform width height
        (.ok (),
          { st with raster_layers :=
              st.raster_layers ++ [⟨id, title, description, url, bounds, visible⟩] })

/-- The record and reference bytes a successful ingestion of src appends,
as a pure function of the collaborators and the call arguments (the
success path of raster_layer produces exactly this pair). -/
def rasterIngestOutput (G : GeoLib) (src : SourceRaster)
    (id title description : String) (visible : Bool) :
    Option (RasterLayer × Bytes) :=
  let tw := G.cdt src.crs dstCrs src.width src.height src.bounds
  let transform := tw.1
  let width := tw.2.1
  let height := tw.2.2
  match rasterAllBands G src with
  | .error _ => none
  | .ok dst_bands =>
    let png_kwargs : PngMeta := pngMetaOf G src dst_bands.length
    match writtenPlanes dst_bands with
    | .error _ => none
    | .ok planes =>
      let m0 : MemFile := ⟨G.flushPart png_kwargs planes, 0⟩
      let r1 := m0.read
      let m2 : MemFile := { r1.2 with buf := r1.2.buf ++ G.finalPart png_kwargs planes }
      let r2 := m2.read
      let url := "data:image/png;base64," ++ b64encode r2.1
      let bounds := rasterBounds transform width height
      some (⟨id, title, description, url, bounds, visible⟩, r1.1)

/-- greppo.py lines 157 to 170, GreppoAppProxy.overlay_layer.

Z models osm.Map(bnds).z, the zoom-estimation collaborator (the osm
module is outside the two source files; the spec directs to treat it as
an external utility).  On an empty GeoDataFrame the pandas column minima
and maxima are NaN, and the NaN bounds fault inside the collaborator
stack (int of NaN raises); no typed error is raised anywhere on that
path, modelled as a propagating ValueError. -/
def overlay_layer (Z : List ℚ → ℤ) (st : AppState) (id : String)
    (data : List GeomBounds) (title description style : String) (visible : Bool) :
    PyResult Unit × AppState :=
  match data with
  | [] => (.error (.exn "ValueError"), st)
  | g :: gs =>
    let minx := (gs.map GeomBounds.minx).foldl min g.minx
    let miny := (gs.map GeomBounds.miny).foldl min g.miny
    let maxx := (gs.map GeomBounds.maxx).foldl max g.maxx
    let maxy := (gs.map GeomBounds.maxy).foldl max g.maxy
    let bnds := [miny, minx, maxy, maxx]
    let viewzoom := [(miny + maxy) / 2, (minx + maxx) / 2, ((Z bnds : ℤ) : ℚ)]
    (.ok (),
      { st with overlay_layers :=
          st.overlay_layers ++ [⟨id, data, title, description, style, visible, viewzoom⟩] })

/-- greppo.py lines 144 to 155, GreppoAppProxy.base_layer. -/
def base_layer (st : AppState) (id name : String) (visible : Bool)
    (url : String) (subdomains : List String) (attribution : String) :
    PyResult Unit × AppState :=
  (.ok (), { st with base_layers := st.base_layers ++ [⟨id, name, visible, url, subdomains, attribution⟩] })

/-- greppo.py lines 134 to 142: tile_layer and ee_layer both append one
externally built dataclass to tile_layers. -/
def tile_layer (st : AppState) (t : String) : PyResult Unit × AppState :=
  (.ok (), { st with tile_layers := st.tile_layers ++ [t] })

/-- greppo.py lines 237 to 262, GreppoAppProxy.image_layer; PIL opening
and JPEG re-encoding are abstracted (ifs none means PIL cannot open the
file), the extension assertion is literal, and the bounds are the
hard-coded constants of lines 255 to 258. -/
def image_layer (ifs : String → Option Bytes) (st : AppState)
    (id file_path title description : String) (visible : Bool) :
    PyResult Unit × AppState :=
  let ext := (file_path.splitOn ".").getLastD ""
  if ¬ (ext = "png" ∨ ext = "jpg" ∨ ext = "jpeg") then
    (.error (.exn "AssertionError"), st)
  else
    match ifs file_path with
    | none => (.error (.exn "UnidentifiedImageError"), st)
    | some jpegBytes =>
      let url := "data:image/png;base64," ++ b64encode jpegBytes
      let bounds : List (List ℚ) :=
        [[14.760840184106792, 77.97900023926854], [14.763995704693206, 77.98389492733145]]
      (.ok (),
        { st with image_layers := st.image_layers ++ [⟨id, title, description, url, bounds, visible⟩] })

/-- greppo.py lines 264 to 265, update_inputs. -/
def update_inputs (st : AppState) (d : List (String × String)) : PyResult Unit × AppState :=
  (.ok (), { st with inputs := d })

/-- greppo.py lines 267 to 274, register_input (the path taken by
display, number, text, select, multiselect, draw_feature, bar_chart and
line_chart): append the component info. -/
def register_input (st : AppState) (c : String) : PyResult Unit × AppState :=
  (.ok (), { st with registered_inputs := st.registered_inputs ++ [c] })

/-- greppo.py lines 276 to 339, gpo_prepare_data: builds and returns the
payload but mutates nothing. -/
def gpo_prepare_data (st : AppState) : PyResult Unit × AppState :=
  (.ok (), st)

/-- greppo.py lines 341 to 345, gpo_reference_data: None when the
reference list is empty, else its first element. -/
def gpo_reference_data (st : AppState) : Option Bytes :=
  if st.raster_image_reference.length = 0 then none
  else st.raster_image_reference.head?

/-- One public operation on the app proxy (the argument payloads carry
the values that in Python come from the caller or from ambient
randomness, such as the uuid hex draws). -/
inductive Op where
  | raster (id file_path title description : String) (visible : Bool)
  | overlay (id : String) (data : List GeomBounds) (title description style : String) (visible : Bool)
  | base (id name : String) (visible : Bool) (url : String) (subdomains : List String) (attribution : String)
  | tile (t : String)
  | image (id file_path title description : String) (visible : Bool)
  | registerInput (c : String)
  | updateInputs (d : List (String × String))
  | prepareData
  | referenceData
deriving DecidableEq

/-- Dispatch of one public operation against the session state. -/
def step (G : GeoLib) (fs : String → Option SourceRaster) (ifs : String → Option Bytes)
    (Z : List ℚ → ℤ) (st : AppState) : Op → PyResult Unit × AppState
  | .raster id p t d v => raster_layer G fs st id p t d v
  | .overlay id data t d s v => overlay_layer Z st id data t d s v
  | .base id n v u sd a => base_layer st id n v u sd a
  | .tile t => tile_layer st t
  | .image id p t d v => image_layer ifs st id p t d v
  | .registerInput c => register_input st c
  | .updateInputs d => update_inputs st d
  | .prepareData => gpo_prepare_data st
  | .referenceData => (.ok (), st)

/-- Run a sequence of operations, defined only when every operation
succeeds. -/
def runOk (G : GeoLib) (fs : String → Option SourceRaster) (ifs : String → Option Bytes)
    (Z : List ℚ → ℤ) : AppState → List Op → Option AppState
  | st, [] => some st
  | st, op :: ops =>
    match step G fs ifs Z st op with
    | (.ok _, st2) => runOk G fs ifs Z st2 ops
    | (.error _, _) => none

/-- A concrete collaborator bundle used to evaluate the pipeline on
closed inputs: the destination grid is the identity scaling with zero
translation at size 10 by 10 (the concrete scenario of the spec),
resampling is the identity on the band buffer, and the PNG writer flushes
nothing until close, at which point it emits four bytes. -/
def Gex : GeoLib :=
  ⟨fun _ _ _ _ _ => (Affine.identity, 10, 10),
   fun p _ _ _ => p,
   fun _ _ => [],
   fun _ _ => [137, 80, 78, 71]⟩

/-- A concrete one-band source raster whose band holds the pixel values
5, -200000000 and 200000000. -/
def srcEx : SourceRaster :=
  ⟨"EPSG:32643", 3, 1, 1, ⟨0, 0, 3, 1⟩, [[[5, -200000000, 200000000]]]⟩

/-- A concrete filesystem: exactly one raster file exists. -/
def fsEx : String → Option SourceRaster :=
  fun p => if p = "f.tif" then some srcEx else none

/-- A concrete three-band source raster (one pixel per band). -/
def src3 : SourceRaster :=
  ⟨"EPSG:32643", 1, 1, 3, ⟨0, 0, 1, 1⟩, [[[1]], [[2]], [[3]]]⟩

/-- The record that ingesting srcEx through Gex appends, for a given id
draw. -/
def recEx (id : String) : RasterLayer :=
  ⟨id, "t", "d", "data:image/png;base64,iVBORw==", [[10, 0], [0, 10]], true⟩

/-- Session state after one successful ingestion of f.tif. -/
def stEx : AppState :=
  { initState with
      raster_layers := [recEx "id0"]
      raster_image_reference := [[]]
      open_files := ["f.tif"] }

/-- Session state after a second successful ingestion of f.tif. -/
def stEx2 : AppState :=
  { initState with
      raster_layers := [recEx "id0", recEx "id1"]
      raster_image_reference := [[], []]
      open_files := ["f.tif", "f.tif"] }

/-- The padding loop of greppo.py lines 192 to 194 iterates over
range(len(dst_bands), src_dataset.count), and len(dst_bands) already
equals the band count when it runs, so it appends nothing: the band list
is always exactly the mapped reprojection list. -/
theorem rasterDstBands_eq (G : GeoLib) (src : SourceRaster) :
    rasterDstBands G src = (List.range src.count).map fun n =>
      DstBand.reproj (reprojectBand G src (n + 1)).1 (reprojectBand G src (n + 1)).2 := by
  by_cases hc : src.count = 3 <;>
    simp [rasterDstBands, hc, List.length_map, List.length_range, Nat.sub_self]

/-- The band list before the alpha append has exactly as many entries as
the source has bands. -/
theorem rasterDstBands_length (G : GeoLib) (src : SourceRaster) :
    (rasterDstBands G src).length = src.count := by
  rw [rasterDstBands_eq]
  simp

/-- A successful band-stage run returns the band list with the alpha
band appended to it. -/
theorem rasterAllBands_ok (G : GeoLib) (src : SourceRaster) (bands : List DstBand)
    (h : rasterAllBands G src = .ok bands) :
    ∃ arr0 t0, (rasterDstBands G src).head? = some (DstBand.reproj arr0 t0) ∧
      bands = rasterDstBands G src ++ [DstBand.reproj (astypeUint8 (npWhereAlpha arr0)) t0] := by
  simp only [rasterAllBands] at h
  split at h
  · exact absurd h (by simp)
  · exact absurd h (by simp)
  · rename_i arr0 t0 hhead
    refine ⟨arr0, t0, hhead, ?_⟩
    injection h with h
    exact h.symm

/-- C3: for every raster input with band count B, the band list handed
to the encoder has exactly B elements before the alpha band is appended
and B + 1 after, and for B = 3 (indeed for every B) no padding occurs:
the list is exactly the mapped reprojection of the source bands. -/
theorem claim_C3_band_counts (G : GeoLib) (src : SourceRaster) :
    (rasterDstBands G src).length = src.count ∧
    (∀ bands, rasterAllBands G src = .ok bands → bands.length = src.count + 1) ∧
    (src.count = 3 → rasterDstBands G src = (List.range src.count).map fun n =>
      DstBand.reproj (reprojectBand G src (n + 1)).1 (reprojectBand G src (n + 1)).2) := by
  refine ⟨rasterDstBands_length G src, ?_, fun _ => rasterDstBands_eq G src⟩
  intro bands h
  obtain ⟨arr0, t0, _, hb⟩ := rasterAllBands_ok G src bands h
  rw [hb]
  simp [rasterDstBands_length]

/-- Witness for C3 at a concrete one-band raster and a concrete
three-band raster. -/
theorem claim_C3_witness :
    ((rasterDstBands Gex srcEx).length = srcEx.count ∧
      [DstBand.reproj [[[5, -200000000, 200000000]]] Affine.identity,
       DstBand.reproj [[[1, 1, 0]]] Affine.identity].length = srcEx.count + 1) ∧
    (rasterDstBands Gex src3 = (List.range src3.count).map fun n =>
      DstBand.reproj (reprojectBand Gex src3 (n + 1)).1 (reprojectBand Gex src3 (n + 1)).2) :=
  ⟨⟨(claim_C3_band_counts Gex srcEx).1,
    (claim_C3_band_counts Gex srcEx).2.1 _ (by decide)⟩,
   (claim_C3_band_counts Gex src3).2.2 (by decide)⟩

/-- C4: every entry of the reprojected band list is the resampling of
one source band onto the single destination grid given by the closed
form calculate_default_transform on the dataset geometry, the same
application of cdt whose transform, width and height raster_layer uses
for the encoder metadata and the bounds derivation; in particular all
bands carry that one shared transform. -/
theorem claim_C4_shared_grid (G : GeoLib) (src : SourceRaster) (b : DstBand)
    (hb : b ∈ rasterDstBands G src) :
    ∃ i, i < src.count ∧
      b = DstBand.reproj
        [G.resample (src.data.getD i []) src.crs dstCrs
          (G.cdt src.crs dstCrs src.width src.height src.bounds)]
        (G.cdt src.crs dstCrs src.width src.height src.bounds).1 ∧
      b.transform? = some (pngMetaOf G src 0).transform := by
  rw [rasterDstBands_eq] at hb
  simp only [List.mem_map, List.mem_range] at hb
  obtain ⟨n, hn, rfl⟩ := hb
  exact ⟨n, hn, by simp [reprojectBand], by simp [reprojectBand, DstBand.transform?, pngMetaOf]⟩

/-- Witness for C4 at the concrete one-band raster. -/
theorem claim_C4_witness :
    ∃ i, i < srcEx.count ∧
      DstBand.reproj [[[5, -200000000, 200000000]]] Affine.identity = DstBand.reproj
        [Gex.resample (srcEx.data.getD i []) srcEx.crs dstCrs
          (Gex.cdt srcEx.crs dstCrs srcEx.width srcEx.height srcEx.bounds)]
        (Gex.cdt srcEx.crs dstCrs srcEx.width srcEx.height srcEx.bounds).1 ∧
      (DstBand.reproj [[[5, -200000000, 200000000]]] Affine.identity).transform?
        = some (pngMetaOf Gex srcEx 0).transform :=
  claim_C4_shared_grid Gex srcEx
    (DstBand.reproj [[[5, -200000000, 200000000]]] Affine.identity) (by decide)

/-- C7: when the raster file cannot be opened, rasterio.open raises its
RasterioIOError before anything is recorded, so the call surfaces that
typed exception and returns with the session state exactly as it was (in
particular nothing is appended to the raster layer list or the
reference image list, and no handle is left open). -/
theorem claim_C7_unreadable_source (G : GeoLib) (fs : String → Option SourceRaster)
    (st : AppState) (id p t d : String) (v : Bool) (h : fs p = none) :
    raster_layer G fs st id p t d v = (.error (.exn "RasterioIOError"), st) := by
  unfold raster_layer
  rw [h]

/-- Witness for C7 at a path that does not exist in the concrete
filesystem. -/
theorem claim_C7_witness :
    fsEx "g.tif" = none ∧
    raster_layer Gex fsEx initState "id0" "g.tif" "t" "d" true
      = (.error (.exn "RasterioIOError"), initState) :=
  ⟨by decide, claim_C7_unreadable_source Gex fsEx initState "id0" "g.tif" "t" "d" true (by decide)⟩

/-- C9 counterexample: a concrete raster ingestion that returns
successfully while the file handle opened for it is still open — the
source never closes src_dataset on any path, refuting the claim that the
handle is closed before the call completes. -/
theorem claim_C9_counterexample :
    (raster_layer Gex fsEx initState "id0" "f.tif" "t" "d" true).1 = .ok () ∧
    (raster_layer Gex fsEx initState "id0" "f.tif" "t" "d" true).2.open_files = ["f.tif"] ∧
    (["f.tif"] : List String) ≠ ([] : List String) := by
  refine ⟨by decide, by decide, by decide⟩

/-- C9 amended: the raster file handle is never closed by raster_layer:
whenever the open succeeds, the handle remains in the open ledger after
the call on every exit path (success or any later failure); only when
the open itself fails is no handle left behind. -/
theorem claim_C9_handle (G : GeoLib) (fs : String → Option SourceRaster)
    (st : AppState) (id p t d : String) (v : Bool) :
    ((fs p).isSome →
      (raster_layer G fs st id p t d v).2.open_files = st.open_files ++ [p]) ∧
    (fs p = none →
      (raster_layer G fs st id p t d v).2.open_files = st.open_files) := by
  cases hfs : fs p with
  | none =>
    refine ⟨fun hs => ?_, fun _ => ?_⟩
    · simp at hs
    · simp [raster_layer, hfs]
  | some src =>
    refine ⟨fun _ => ?_, fun hc => ?_⟩
    · simp only [raster_layer, hfs]
      split
      · simp
      · split <;> simp
    · simp at hc

/-- Witness for C9 amended, at the concrete filesystem: the open path
leaves the handle open, the failing path leaves the ledger alone. -/
theorem claim_C9_witness :
    ((fsEx "f.tif").isSome →
      (raster_layer Gex fsEx initState "id0" "f.tif" "t" "d" true).2.open_files
        = initState.open_files ++ ["f.tif"]) ∧
    (fsEx "g.tif" = none →
      (raster_layer Gex fsEx initState "id1" "g.tif" "t" "d" true).2.open_files
        = initState.open_files) :=
  ⟨(claim_C9_handle Gex fsEx initState "id0" "f.tif" "t" "d" true).1,
   (claim_C9_handle Gex fsEx initState "id1" "g.tif" "t" "d" true).2⟩

/-- C6 counterexample: on an empty geometry collection (degenerate
bounds) the overlay computation does not fail with the typed
IngestError EmptyGeometry of the specification (no such type exists in
the code); the failure is an untyped foreign error propagating from the
numeric stack. -/
theorem claim_C6_counterexample :
    (overlay_layer (fun _ => 0) initState "id0" [] "t" "d" "s" true).1
      = .error (.exn "ValueError") ∧
    PyErr.exn "ValueError" ≠ PyErr.ingest IngestError.EmptyGeometry := by
  refine ⟨by decide, by decide⟩

/-- C6 amended: overlay_layer performs no emptiness validation and
raises no typed error: on an empty collection the failure is a foreign
exception from the numeric collaborators with the state unchanged, and
on any non-empty collection the computation is pure and total, appending
exactly one overlay layer. -/
theorem claim_C6_empty_geometry (Z : List ℚ → ℤ) (st : AppState) (id : String)
    (data : List GeomBounds) (t d s : String) (v : Bool) :
    (data = [] → overlay_layer Z st id data t d s v = (.error (.exn "ValueError"), st)) ∧
    (data ≠ [] → (overlay_layer Z st id data t d s v).1 = .ok () ∧
      ∃ L, (overlay_layer Z st id data t d s v).2
        = { st with overlay_layers := st.overlay_layers ++ [L] }) := by
  cases data with
  | nil => exact ⟨fun _ => rfl, fun hc => absurd rfl hc⟩
  | cons g gs =>
    refine ⟨fun hc => by simp_all, fun _ => ⟨rfl, ⟨_, rfl⟩⟩⟩

/-- Witness for C6 amended at a singleton geometry collection and at the
empty one. -/
theorem claim_C6_witness :
    overlay_layer (fun _ => 0) initState "id0" [] "t" "d" "s" true
      = (.error (.exn "ValueError"), initState) ∧
    (overlay_layer (fun _ => 0) initState "id0" [⟨0, 0, 10, 20⟩] "t" "d" "s" true).1
      = .ok () := by
  refine ⟨(claim_C6_empty_geometry (fun _ => 0) initState "id0" [] "t" "d" "s" true).1 rfl,
    ((claim_C6_empty_geometry (fun _ => 0) initState "id0" [⟨0, 0, 10, 20⟩] "t" "d" "s" true).2
      (by decide)).1⟩

/-- Success-path characterization of raster_layer: a call that returns
ok found the raster in the filesystem, produced exactly the record and
reference bytes given by rasterIngestOutput, appended one element to the
raster layer list and one to the reference list, left every other
session list untouched, and left the handle open. -/
theorem raster_layer_ok_spec (G : GeoLib) (fs : String → Option SourceRaster)
    (st : AppState) (id p t d : String) (v : Bool) (st2 : AppState)
    (h : raster_layer G fs st id p t d v = (.ok (), st2)) :
    ∃ src rec bytes, fs p = some src ∧
      rasterIngestOutput G src id t d v = some (rec, bytes) ∧
      st2.raster_layers = st.raster_layers ++ [rec] ∧
      st2.raster_image_reference = st.raster_image_reference ++ [bytes] ∧
      st2.open_files = st.open_files ++ [p] ∧
      st2.base_layers = st.base_layers ∧
      st2.tile_layers = st.tile_layers ∧
      st2.overlay_layers = st.overlay_layers ∧
      st2.image_layers = st.image_layers ∧
      st2.registered_inputs = st.registered_inputs ∧
      st2.inputs = st.inputs := by
  simp only [raster_layer] at h
  split at h
  · exact absurd h (by simp)
  · rename_i src hfs
    split at h
    · exact absurd h (by simp)
    · rename_i bands hbands
      split at h
      · exact absurd h (by simp)
      · rename_i planes hplanes
        injection h with h1 h2
        subst h2
        have hout : ∃ rb, rasterIngestOutput G src id t d v = some rb := by
          simp only [rasterIngestOutput, hbands, hplanes]
          exact ⟨_, rfl⟩
        obtain ⟨⟨rec, bytes⟩, hout⟩ := hout
        have hout2 := hout
        simp only [rasterIngestOutput, hbands, hplanes] at hout2
        injection hout2 with hpair
        injection hpair with hrec hbytes
        exact ⟨src, rec, bytes, hfs, hout, by rw [← hrec], by rw [← hbytes],
          by simp, by simp, by simp, by simp, by simp, by simp, by simp⟩

/-- An errored raster_layer call never touches the raster layer list or
the reference image list. -/
theorem raster_layer_error_lists (G : GeoLib) (fs : String → Option SourceRaster)
    (st : AppState) (id p t d : String) (v : Bool) (e : PyErr) (st2 : AppState)
    (h : raster_layer G fs st id p t d v = (.error e, st2)) :
    st2.raster_layers = st.raster_layers ∧
    st2.raster_image_reference = st.raster_image_reference := by
  simp only [raster_layer] at h
  split at h
  · injection h with h1 h2
    subst h2
    exact ⟨rfl, rfl⟩
  · rename_i src hfs
    split at h
    · injection h with h1 h2
      subst h2
      exact ⟨by simp, by simp⟩
    · rename_i bands hbands
      split at h
      · injection h with h1 h2
        subst h2
        exact ⟨by simp, by simp⟩
      · exact absurd h (by simp)

/-- What rasterIngestOutput produces, componentwise: the reference bytes
are exactly what the memory file held at the first read (the flushed
part), the data URI embeds the base64 of what the second read returned,
namely only the suffix appended at close (the first read left the file
position at the end of the flushed part), and the bounds come from
rasterBounds on the cdt grid. -/
theorem rasterIngestOutput_parts (G : GeoLib) (src : SourceRaster)
    (id t d : String) (v : Bool) (rec : RasterLayer) (bytes : Bytes)
    (h : rasterIngestOutput G src id t d v = some (rec, bytes)) :
    ∃ bands planes, rasterAllBands G src = .ok bands ∧ writtenPlanes bands = .ok planes ∧
      bytes = G.flushPart (pngMetaOf G src bands.length) planes ∧
      rec.url = "data:image/png;base64,"
        ++ b64encode (G.finalPart (pngMetaOf G src bands.length) planes) ∧
      rec.bounds = rasterBounds (G.cdt src.crs dstCrs src.width src.height src.bounds).1
        (G.cdt src.crs dstCrs src.width src.height src.bounds).2.1
        (G.cdt src.crs dstCrs src.width src.height src.bounds).2.2 ∧
      rec.id = id ∧ rec.title = t ∧ rec.description = d ∧ rec.visible = v := by
  simp only [rasterIngestOutput] at h
  split at h
  · exact absurd h (by simp)
  · rename_i bands hbands
    split at h
    · exact absurd h (by simp)
    · rename_i planes hplanes
      injection h with hpair
      injection hpair with hrec hbytes
      exact ⟨bands, planes, hbands, hplanes,
        by rw [← hbytes]; simp [MemFile.read],
        by rw [← hrec]; simp [MemFile.read, List.drop_left],
        by rw [← hrec], by rw [← hrec], by rw [← hrec], by rw [← hrec], by rw [← hrec]⟩

/-- Concrete evaluation of one full ingestion of f.tif from the fresh
session state. -/
theorem rasterRunEx :
    raster_layer Gex fsEx initState "id0" "f.tif" "t" "d" true = (.ok (), stEx) := by
  with_unfolding_all decide

/-- Concrete evaluation of a second ingestion of f.tif on top of the
first. -/
theorem rasterRunEx2 :
    raster_layer Gex fsEx stEx "id1" "f.tif" "t" "d" true = (.ok (), stEx2) := by
  with_unfolding_all decide

/-- C1 counterexample: with the destination transform equal to the
identity scaling with zero translation and width = height = 10, the
successful ingestion stores bounds [[10, 0], [0, 10]], not the
[[0, 0], [10, 10]] the claim requires: the two stored pairs each mix one
coordinate of transform(0,0) with one coordinate of
transform(width,height), and the latitude-like value comes first. -/
theorem claim_C1_counterexample :
    (raster_layer Gex fsEx initState "id0" "f.tif" "t" "d" true).1 = .ok () ∧
    (raster_layer Gex fsEx initState "id0" "f.tif" "t" "d" true).2.raster_layers.map
        RasterLayer.bounds = [[[10, 0], [0, 10]]] ∧
    ([[(10 : ℚ), 0], [0, 10]] : List (List ℚ)) ≠ [[0, 0], [10, 10]] :=
  ⟨by decide, by with_unfolding_all decide, by decide⟩

/-- C1 amended: a successful ingestion appends one record whose bounds
are rasterBounds of the computed destination grid, where rasterBounds
pairs the second coordinate of transform(width,height) with the first
coordinate of transform(0,0) and vice versa — each stored pair mixes
coordinates of the two mapped corners, with the latitude-like coordinate
first; on the identity transform at 10 by 10 this yields
[[10, 0], [0, 10]]. -/
theorem claim_C1_bounds (G : GeoLib) (fs : String → Option SourceRaster)
    (st : AppState) (id p t d : String) (v : Bool) (st2 : AppState) (src : SourceRaster)
    (hfs : fs p = some src)
    (h : raster_layer G fs st id p t d v = (.ok (), st2)) :
    (∃ rec, st2.raster_layers = st.raster_layers ++ [rec] ∧
      rec.bounds = rasterBounds (G.cdt src.crs dstCrs src.width src.height src.bounds).1
        (G.cdt src.crs dstCrs src.width src.height src.bounds).2.1
        (G.cdt src.crs dstCrs src.width src.height src.bounds).2.2) ∧
    (∀ (T : Affine) (w hh : Nat), rasterBounds T w hh =
      [[(T.apply (w : ℚ) (hh : ℚ)).2, (T.apply 0 0).1],
       [(T.apply 0 0).2, (T.apply (w : ℚ) (hh : ℚ)).1]]) ∧
    rasterBounds Affine.identity 10 10 = [[10, 0], [0, 10]] := by
  obtain ⟨src2, rec, bytes, hfs2, hout, hl, -⟩ := raster_layer_ok_spec G fs st id p t d v st2 h
  rw [hfs] at hfs2
  injection hfs2 with e
  subst e
  obtain ⟨bands, planes, -, -, -, -, hbounds, -⟩ :=
    rasterIngestOutput_parts G src id t d v rec bytes hout
  exact ⟨⟨rec, hl, hbounds⟩, fun T w hh => rfl, by with_unfolding_all decide⟩

/-- Witness for C1 amended at the concrete identity-grid ingestion. -/
theorem claim_C1_witness :
    (∃ rec, stEx.raster_layers = initState.raster_layers ++ [rec] ∧
      rec.bounds = rasterBounds (Gex.cdt srcEx.crs dstCrs srcEx.width srcEx.height srcEx.bounds).1
        (Gex.cdt srcEx.crs dstCrs srcEx.width srcEx.height srcEx.bounds).2.1
        (Gex.cdt srcEx.crs dstCrs srcEx.width srcEx.height srcEx.bounds).2.2) ∧
    (∀ (T : Affine) (w hh : Nat), rasterBounds T w hh =
      [[(T.apply (w : ℚ) (hh : ℚ)).2, (T.apply 0 0).1],
       [(T.apply 0 0).2, (T.apply (w : ℚ) (hh : ℚ)).1]]) ∧
    rasterBounds Affine.identity 10 10 = [[10, 0], [0, 10]] :=
  claim_C1_bounds Gex fsEx initState "id0" "f.tif" "t" "d" true stEx srcEx (by decide) rasterRunEx

/-- C5 counterexample: in a concrete successful ingestion the reference
list records the empty byte string (the memory file content at the first
read, before the writer was closed) while the data URI embeds the
nonempty bytes the second read returned, so the URI payload does not
decode to the recorded reference bytes. -/
theorem claim_C5_counterexample :
    (raster_layer Gex fsEx initState "id0" "f.tif" "t" "d" true).2.raster_image_reference
      = [[]] ∧
    (raster_layer Gex fsEx initState "id0" "f.tif" "t" "d" true).2.raster_layers.map
        RasterLayer.url = ["data:image/png;base64," ++ b64encode [137, 80, 78, 71]] ∧
    "data:image/png;base64," ++ b64encode [137, 80, 78, 71]
      ≠ "data:image/png;base64," ++ b64encode ([] : Bytes) :=
  ⟨by decide, by decide, by decide⟩

/-- C5 amended: the two reads of the memory file partition its final
content at the file position left by the first read: the reference list
records exactly the part available before the writer closed (flushPart),
while the data URI embeds the base64 of only the finalization suffix
(finalPart); the URI payload therefore decodes to the recorded reference
bytes only in the degenerate case where the two parts coincide. -/
theorem claim_C5_data_uri (G : GeoLib) (fs : String → Option SourceRaster)
    (st : AppState) (id p t d : String) (v : Bool) (st2 : AppState) (src : SourceRaster)
    (bands : List DstBand) (planes : List Plane)
    (hfs : fs p = some src)
    (hbands : rasterAllBands G src = .ok bands)
    (hplanes : writtenPlanes bands = .ok planes)
    (h : raster_layer G fs st id p t d v = (.ok (), st2)) :
    st2.raster_image_reference = st.raster_image_reference
      ++ [G.flushPart (pngMetaOf G src bands.length) planes] ∧
    st2.raster_layers.map RasterLayer.url = st.raster_layers.map RasterLayer.url
      ++ ["data:image/png;base64,"
            ++ b64encode (G.finalPart (pngMetaOf G src bands.length) planes)] := by
  obtain ⟨src2, rec, bytes, hfs2, hout, hl, href, -⟩ :=
    raster_layer_ok_spec G fs st id p t d v st2 h
  rw [hfs] at hfs2
  injection hfs2 with e
  subst e
  obtain ⟨bands2, planes2, hbands2, hplanes2, hbytes, hurl, -⟩ :=
    rasterIngestOutput_parts G src id t d v rec bytes hout
  rw [hbands] at hbands2
  injection hbands2 with e2
  subst e2
  rw [hplanes] at hplanes2
  injection hplanes2 with e3
  subst e3
  refine ⟨?_, ?_⟩
  · rw [href, hbytes]
  · rw [hl]
    simp [hurl]

/-- Witness for C5 amended at the concrete ingestion: the reference
entry is the empty flushed part and the URI embeds the four-byte
finalization suffix. -/
theorem claim_C5_witness :
    stEx.raster_image_reference = initState.raster_image_reference
      ++ [Gex.flushPart (pngMetaOf Gex srcEx 2)
            [[[5, -200000000, 200000000]], [[1, 1, 0]]]] ∧
    stEx.raster_layers.map RasterLayer.url = initState.raster_layers.map RasterLayer.url
      ++ ["data:image/png;base64,"
            ++ b64encode (Gex.finalPart (pngMetaOf Gex srcEx 2)
                [[[5, -200000000, 200000000]], [[1, 1, 0]]])] :=
  claim_C5_data_uri Gex fsEx initState "id0" "f.tif" "t" "d" true stEx srcEx
    [DstBand.reproj [[[5, -200000000, 200000000]]] Affine.identity,
     DstBand.reproj [[[1, 1, 0]]] Affine.identity]
    [[[5, -200000000, 200000000]], [[1, 1, 0]]]
    (by decide) (by decide) (by decide) rasterRunEx

/-- getD through map, inside the bounds of the list. -/
theorem getD_map_lt {α β : Type} (f : α → β) (l : List α) (i : Nat) (d : β) (d2 : α)
    (h : i < l.length) : (l.map f).getD i d = f (l.getD i d2) := by
  induction l generalizing i with
  | nil => exact absurd h (by simp)
  | cons a tl ih =>
    cases i with
    | zero => rfl
    | succ n =>
      simp only [List.map_cons, List.getD_cons_succ]
      exact ih n (Nat.lt_of_succ_lt_succ h)

/-- The alpha entry at an in-bounds position is the thresholded value of
the band-0 pixel at the same position. -/
theorem npWhereAlpha_getD (c : Cube) (i j k : Nat) (hi : i < c.length)
    (hj : j < (c.getD i []).length) (hk : k < ((c.getD i []).getD j []).length) :
    (((npWhereAlpha c).getD i []).getD j []).getD k 0
      = if ((c.getD i []).getD j []).getD k 0 > 100000000 then 0 else 1 := by
  simp only [npWhereAlpha]
  rw [getD_map_lt _ c i [] [] hi, getD_map_lt _ _ j [] [] hj, getD_map_lt _ _ k 0 0 hk]

/-- C2 counterexample: a concrete successful band stage in which the
synthesized alpha band holds the value 1 — not in the claimed set
{0, 255} — and holds the non-transparent value 1 at a pixel whose
magnitude 200000000 exceeds the threshold (the source compares the
signed value, not the magnitude, and scales the boolean to {0, 1}). -/
theorem claim_C2_counterexample :
    rasterAllBands Gex srcEx =
      .ok [DstBand.reproj [[[5, -200000000, 200000000]]] Affine.identity,
           DstBand.reproj [[[1, 1, 0]]] Affine.identity] ∧
    ¬ ((1 : ℚ) = 0 ∨ (1 : ℚ) = 255) ∧
    |(-200000000 : ℚ)| > 100000000 :=
  ⟨by decide, by decide, by norm_num⟩

/-- C2 amended: the alpha band values lie in {0, 1} (not {0, 255}), the
uint8 cast leaves them unchanged, the entry at any in-bounds position is
the non-transparent value 1 exactly when the signed band-0 pixel value
(not its magnitude) is at most 100000000, and every successful band
stage appends exactly this alpha band, derived from the reprojected
band-0 array. -/
theorem claim_C2_alpha :
    (∀ (c : Cube) p r v, p ∈ npWhereAlpha c → r ∈ p → v ∈ r → v = 0 ∨ v = 1) ∧
    (∀ c : Cube, astypeUint8 (npWhereAlpha c) = npWhereAlpha c) ∧
    (∀ (c : Cube) i j k, i < c.length → j < (c.getD i []).length →
      k < ((c.getD i []).getD j []).length →
      ((((npWhereAlpha c).getD i []).getD j []).getD k 0 = 1 ↔
        ((c.getD i []).getD j []).getD k 0 ≤ 100000000)) ∧
    (∀ (G : GeoLib) (src : SourceRaster) bands, rasterAllBands G src = .ok bands →
      ∃ arr0 t0, (rasterDstBands G src).head? = some (DstBand.reproj arr0 t0) ∧
        bands = rasterDstBands G src ++ [DstBand.reproj (astypeUint8 (npWhereAlpha arr0)) t0]) := by
  refine ⟨?_, ?_, ?_, fun G src bands h => rasterAllBands_ok G src bands h⟩
  · intro c p r v hp hr hv
    simp only [npWhereAlpha, List.mem_map] at hp
    obtain ⟨p0, -, rfl⟩ := hp
    simp only [List.mem_map] at hr
    obtain ⟨r0, -, rfl⟩ := hr
    simp only [List.mem_map] at hv
    obtain ⟨x, -, rfl⟩ := hv
    by_cases hx : x > 100000000
    · exact .inl (if_pos hx)
    · exact .inr (if_neg hx)
  · intro c
    simp only [astypeUint8, npWhereAlpha, List.map_map]
    congr 1
    funext p
    simp only [Function.comp, List.map_map]
    congr 1
    funext r
    simp only [Function.comp, List.map_map]
    congr 1
    funext x
    by_cases hx : x > 100000000
    · simp only [Function.comp_apply, if_pos hx]
      decide
    · simp only [Function.comp_apply, if_neg hx]
      decide
  · intro c i j k hi hj hk
    rw [npWhereAlpha_getD c i j k hi hj hk]
    by_cases hx : ((c.getD i []).getD j []).getD k 0 > 100000000
    · rw [if_pos hx]
      exact iff_of_false (by norm_num) (not_le.mpr hx)
    · rw [if_neg hx]
      exact iff_of_true rfl (not_lt.mp hx)

/-- Witness for C2 amended at the concrete band-0 array with pixels 5,
-200000000 and 200000000. -/
theorem claim_C2_witness :
    ((1 : ℚ) = 0 ∨ (1 : ℚ) = 1) ∧
    ((((npWhereAlpha [[[5, -200000000, 200000000]]]).getD 0 []).getD 0 []).getD 1 0 = 1 ↔
      ((([[[5, -200000000, 200000000]]] : Cube).getD 0 []).getD 0 []).getD 1 0 ≤ 100000000) ∧
    (∃ arr0 t0, (rasterDstBands Gex srcEx).head? = some (DstBand.reproj arr0 t0) ∧
      [DstBand.reproj [[[5, -200000000, 200000000]]] Affine.identity,
       DstBand.reproj [[[1, 1, 0]]] Affine.identity]
        = rasterDstBands Gex srcEx ++ [DstBand.reproj (astypeUint8 (npWhereAlpha arr0)) t0]) :=
  ⟨claim_C2_alpha.1 [[[5, -200000000, 200000000]]] [[1, 1, 0]] [1, 1, 0] 1
      (by decide) (by decide) (by decide),
   claim_C2_alpha.2.2.1 [[[5, -200000000, 200000000]]] 0 0 1 (by decide) (by decide) (by decide),
   claim_C2_alpha.2.2.2 Gex srcEx _ (by decide)⟩

/-- Each public operation either leaves the raster layer list and the
reference image list untouched, or it is a successful raster ingestion
appending exactly one paired record and byte buffer. -/
theorem step_lists (G : GeoLib) (fs : String → Option SourceRaster)
    (ifs : String → Option Bytes) (Z : List ℚ → ℤ) (st : AppState) (op : Op)
    (res : PyResult Unit) (st2 : AppState) (h : step G fs ifs Z st op = (res, st2)) :
    (st2.raster_layers = st.raster_layers ∧
     st2.raster_image_reference = st.raster_image_reference) ∨
    (∃ id p t d v src rec bytes, op = .raster id p t d v ∧ res = .ok () ∧
      fs p = some src ∧ rasterIngestOutput G src id t d v = some (rec, bytes) ∧
      st2.raster_layers = st.raster_layers ++ [rec] ∧
      st2.raster_image_reference = st.raster_image_reference ++ [bytes]) := by
  cases op with
  | raster id p t d v =>
    cases res with
    | ok u =>
      cases u
      obtain ⟨src, rec, bytes, hfs, hout, hl, href, -⟩ :=
        raster_layer_ok_spec G fs st id p t d v st2 h
      exact .inr ⟨id, p, t, d, v, src, rec, bytes, rfl, rfl, hfs, hout, hl, href⟩
    | error e =>
      exact .inl (raster_layer_error_lists G fs st id p t d v e st2 h)
  | overlay id data t d s v =>
    left
    cases data with
    | nil =>
      simp only [step, overlay_layer] at h
      injection h with h1 h2
      subst h2
      exact ⟨rfl, rfl⟩
    | cons g gs =>
      simp only [step, overlay_layer] at h
      injection h with h1 h2
      subst h2
      exact ⟨rfl, rfl⟩
  | base id n v u sd a =>
    left
    simp only [step, base_layer] at h
    injection h with h1 h2
    subst h2
    exact ⟨rfl, rfl⟩
  | tile t =>
    left
    simp only [step, tile_layer] at h
    injection h with h1 h2
    subst h2
    exact ⟨rfl, rfl⟩
  | image id p t d v =>
    left
    simp only [step, image_layer] at h
    split at h
    · injection h with h1 h2
      subst h2
      exact ⟨rfl, rfl⟩
    · split at h
      · injection h with h1 h2
        subst h2
        exact ⟨rfl, rfl⟩
      · injection h with h1 h2
        subst h2
        exact ⟨rfl, rfl⟩
  | registerInput c =>
    left
    simp only [step, register_input] at h
    injection h with h1 h2
    subst h2
    exact ⟨rfl, rfl⟩
  | updateInputs d =>
    left
    simp only [step, update_inputs] at h
    injection h with h1 h2
    subst h2
    exact ⟨rfl, rfl⟩
  | prepareData =>
    left
    simp only [step, gpo_prepare_data] at h
    injection h with h1 h2
    subst h2
    exact ⟨rfl, rfl⟩
  | referenceData =>
    left
    simp only [step] at h
    injection h with h1 h2
    subst h2
    exact ⟨rfl, rfl⟩

/-- Across any successful operation sequence, the raster layer list and
the reference image list grow in lockstep: their contents are the two
projections of one list of per-ingestion output pairs. -/
theorem runOk_lists (G : GeoLib) (fs : String → Option SourceRaster)
    (ifs : String → Option Bytes) (Z : List ℚ → ℤ) :
    ∀ (ops : List Op) (st st2 : AppState), runOk G fs ifs Z st ops = some st2 →
    ∃ outs : List (RasterLayer × Bytes),
      st2.raster_layers = st.raster_layers ++ outs.map Prod.fst ∧
      st2.raster_image_reference = st.raster_image_reference ++ outs.map Prod.snd ∧
      ∀ pr ∈ outs, ∃ src id t d v, rasterIngestOutput G src id t d v = some pr := by
  intro ops
  induction ops with
  | nil =>
    intro st st2 h
    simp only [runOk] at h
    injection h with h
    subst h
    exact ⟨[], by simp, by simp, by simp⟩
  | cons op ops ih =>
    intro st st2 h
    simp only [runOk] at h
    split at h
    · rename_i u st1 hstep
      obtain ⟨outs, hl, hr, hmem⟩ := ih st1 st2 h
      rcases step_lists G fs ifs Z st op _ st1 hstep with
        ⟨el, er⟩ | ⟨id, p, t, d, v, src, rec, bytes, -, -, hfs, hout, hl2, hr2⟩
      · exact ⟨outs, by rw [hl, el], by rw [hr, er], hmem⟩
      · refine ⟨(rec, bytes) :: outs, ?_, ?_, ?_⟩
        · rw [hl, hl2]
          simp
        · rw [hr, hr2]
          simp
        · intro pr hpr
          rcases List.mem_cons.mp hpr with rfl | hpr
          · exact ⟨src, id, t, d, v, hout⟩
          · exact hmem pr hpr
    · exact absurd h (by simp)

/-- C10: a successful raster ingestion appends exactly one record to the
raster layer list and exactly one byte buffer to the reference image
list; no other public operation modifies either list; hence after any
sequence of successful operations the two lists are the projections of
one list of per-ingestion pairs, in particular they have equal length
and the i-th reference bytes were produced by the same ingestion as the
i-th raster record. -/
theorem claim_C10_list_pairing :
    (∀ (G : GeoLib) (fs : String → Option SourceRaster) (st : AppState)
        (id p t d : String) (v : Bool) (st2 : AppState),
      raster_layer G fs st id p t d v = (.ok (), st2) →
      ∃ src rec bytes, fs p = some src ∧
        rasterIngestOutput G src id t d v = some (rec, bytes) ∧
        st2.raster_layers = st.raster_layers ++ [rec] ∧
        st2.raster_image_reference = st.raster_image_reference ++ [bytes]) ∧
    (∀ (G : GeoLib) (fs : String → Option SourceRaster) (ifs : String → Option Bytes)
        (Z : List ℚ → ℤ) (st : AppState) (op : Op) (res : PyResult Unit) (st2 : AppState),
      (∀ id p t d v, op ≠ Op.raster id p t d v) →
      step G fs ifs Z st op = (res, st2) →
      st2.raster_layers = st.raster_layers ∧
      st2.raster_image_reference = st.raster_image_reference) ∧
    (∀ (G : GeoLib) (fs : String → Option SourceRaster) (ifs : String → Option Bytes)
        (Z : List ℚ → ℤ) (ops : List Op) (st2 : AppState),
      runOk G fs ifs Z initState ops = some st2 →
      ∃ outs : List (RasterLayer × Bytes),
        st2.raster_layers = outs.map Prod.fst ∧
        st2.raster_image_reference = outs.map Prod.snd ∧
        st2.raster_layers.length = st2.raster_image_reference.length ∧
        ∀ pr ∈ outs, ∃ src id t d v, rasterIngestOutput G src id t d v = some pr) := by
  refine ⟨?_, ?_, ?_⟩
  · intro G fs st id p t d v st2 h
    obtain ⟨src, rec, bytes, hfs, hout, hl, href, -⟩ :=
      raster_layer_ok_spec G fs st id p t d v st2 h
    exact ⟨src, rec, bytes, hfs, hout, hl, href⟩
  · intro G fs ifs Z st op res st2 hne h
    rcases step_lists G fs ifs Z st op res st2 h with hok |
      ⟨id, p, t, d, v, src, rec, bytes, hop, -⟩
    · exact hok
    · exact absurd hop (hne id p t d v)
  · intro G fs ifs Z ops st2 h
    obtain ⟨outs, hl, hr, hmem⟩ := runOk_lists G fs ifs Z ops initState st2 h
    simp only [initState, List.nil_append] at hl hr
    exact ⟨outs, hl, hr, by rw [hl, hr]; simp, hmem⟩

/-- Witness for C10: the first conjunct at the concrete successful
ingestion, the second at a tile-layer operation, the third at the
one-operation sequence consisting of that ingestion. -/
theorem claim_C10_witness :
    (∃ src rec bytes, fsEx "f.tif" = some src ∧
      rasterIngestOutput Gex src "id0" "t" "d" true = some (rec, bytes) ∧
      stEx.raster_layers = initState.raster_layers ++ [rec] ∧
      stEx.raster_image_reference = initState.raster_image_reference ++ [bytes]) ∧
    (({ initState with tile_layers := ["x"] } : AppState).raster_layers
        = initState.raster_layers ∧
      ({ initState with tile_layers := ["x"] } : AppState).raster_image_reference
        = initState.raster_image_reference) ∧
    (∃ outs : List (RasterLayer × Bytes),
      stEx.raster_layers = outs.map Prod.fst ∧
      stEx.raster_image_reference = outs.map Prod.snd ∧
      stEx.raster_layers.length = stEx.raster_image_reference.length ∧
      ∀ pr ∈ outs, ∃ src id t d v, rasterIngestOutput Gex src id t d v = some pr) :=
  ⟨claim_C10_list_pairing.1 Gex fsEx initState "id0" "f.tif" "t" "d" true stEx rasterRunEx,
   claim_C10_list_pairing.2.1 Gex fsEx (fun _ => none) (fun _ => 0) initState
     (Op.tile "x") (.ok ()) { initState with tile_layers := ["x"] }
     (fun id p t d v => by simp) rfl,
   claim_C10_list_pairing.2.2 Gex fsEx (fun _ => none) (fun _ => 0)
     [Op.raster "id0" "f.tif" "t" "d" true] stEx
     (by simp [runOk, step, rasterRunEx])⟩

/-- C8: reference retrieval on a fresh session returns none (absent, not
an empty byte buffer: it is none exactly when the reference list is
empty); and once any successful ingestion has happened, retrieval
returns the first recorded entry and is unchanged by any further
successful operations, later ingestions included. -/
theorem claim_C8_reference_retrieval :
    gpo_reference_data initState = none ∧
    (∀ st : AppState, gpo_reference_data st = none ↔ st.raster_image_reference = []) ∧
    (∀ (G : GeoLib) (fs : String → Option SourceRaster) (ifs : String → Option Bytes)
        (Z : List ℚ → ℤ) (ops1 ops2 : List Op) (st1 st2 : AppState),
      runOk G fs ifs Z initState ops1 = some st1 →
      runOk G fs ifs Z st1 ops2 = some st2 →
      st1.raster_image_reference ≠ [] →
      gpo_reference_data st1 = st1.raster_image_reference.head? ∧
      gpo_reference_data st2 = gpo_reference_data st1) := by
  refine ⟨rfl, ?_, ?_⟩
  · intro st
    cases hcase : st.raster_image_reference with
    | nil => simp [gpo_reference_data, hcase]
    | cons b bs => simp [gpo_reference_data, hcase]
  · intro G fs ifs Z ops1 ops2 st1 st2 h1 h2 hne
    obtain ⟨outs, -, hr2, -⟩ := runOk_lists G fs ifs Z ops2 st1 st2 h2
    cases hcase : st1.raster_image_reference with
    | nil => exact absurd hcase hne
    | cons b bs =>
      constructor
      · simp [gpo_reference_data, hcase]
      · simp [gpo_reference_data, hr2, hcase]

/-- Witness for C8: two consecutive concrete ingestions; retrieval after
the first returns the first entry and is unchanged by the second. -/
theorem claim_C8_witness :
    gpo_reference_data initState = none ∧
    (gpo_reference_data stEx = none ↔ stEx.raster_image_reference = []) ∧
    (gpo_reference_data stEx = stEx.raster_image_reference.head? ∧
      gpo_reference_data stEx2 = gpo_reference_data stEx) :=
  ⟨claim_C8_reference_retrieval.1,
   claim_C8_reference_retrieval.2.1 stEx,
   claim_C8_reference_retrieval.2.2 Gex fsEx (fun _ => none) (fun _ => 0)
     [Op.raster "id0" "f.tif" "t" "d" true] [Op.raster "id1" "f.tif" "t" "d" true] stEx stEx2
     (by simp [runOk, step, rasterRunEx])
     (by simp [runOk, step, rasterRunEx2])
     (by decide)⟩

end Greppo

